import Mathlib

/-!
Verification of the Brooklyn food-desert dashboard
(`Brooklyn_Food_Desert_App.py`): a shallow embedding of the tract /
neighborhood cascading filter, the choropleth map construction
(`create_map`), the rank-option extraction, and the CSV export, together
with theorems about the claimed properties.

Tables are modelled as a list of column names plus a list of rows, where a
row is an association list from column name to an optional string cell
(`none` models a missing value, pandas `NaN` / Python `None`).  Operations
that can raise in Python (column access on a missing column, list indexing
out of range) are modelled in `Except` / `Option`.
-/

set_option autoImplicit false

namespace FoodDesert

/-- A cell of a table: `none` models pandas `NaN` / Python `None`. -/
abbrev Cell := Option String

/-- A row: an association list from column name to cell, in column order. -/
abbrev RowT := List (String × Cell)

/-- A pandas `DataFrame` / `GeoDataFrame`: column names plus rows. -/
structure DTable where
  columns : List String
  rows : List RowT
deriving DecidableEq, Repr

/-- Column access `row[c]`, collapsing a missing key and a `NaN` cell to `none`
(both compare unequal to every string in a pandas boolean mask). -/
def rowGet (r : RowT) (c : String) : Cell :=
  match r.find? (fun p => p.1 == c) with
  | some p => p.2
  | none => none

/-- Well-formedness of a table: every row carries exactly the declared
columns, in order (as pandas guarantees). -/
def DTable.Wf (t : DTable) : Prop :=
  ∀ r ∈ t.rows, r.map Prod.fst = t.columns

/-- Pandas `Series.unique().tolist()`: deduplicate keeping first occurrences. -/
def pandasUnique {α : Type} [DecidableEq α] : List α → List α
  | [] => []
  | a :: l => a :: (pandasUnique l).filter (fun b => b ≠ a)

/-- Insert into a list sorted by a numeric key (stable). -/
def insertByKey (key : String → Nat) (x : String) : List String → List String
  | [] => [x]
  | y :: ys => if key x ≤ key y then x :: y :: ys else y :: insertByKey key x ys

/-- Python `sorted(l, key=key)`: stable insertion sort by a numeric key. -/
def sortByKey (key : String → Nat) (l : List String) : List String :=
  l.foldr (insertByKey key) []

/-- Python `str.isdigit()`: non-empty and all characters are digits. -/
def isDigitStr (s : String) : Bool :=
  !s.toList.isEmpty && s.toList.all Char.isDigit

/-- Python `int(s)` on a digit string. -/
def natOfDigits (s : String) : Nat :=
  s.toList.foldl (fun n c => 10 * n + (c.toNat - 48)) 0

/-! Section: The choropleth map (`create_map`, lines 31-69) -/

/-- The model of the `folium.Choropleth` layer added by `create_map`. -/
structure ChoroplethLayer where
  data : List RowT
  columns : List String
  keyOn : String
  fillColor : String
  fillOpacity : ℚ
  lineOpacity : ℚ
  legendName : String
deriving DecidableEq, Repr

/-- The `folium.GeoJson` tooltip layer added by `create_map`. -/
structure TooltipLayer where
  data : List RowT
  fields : List String
  aliases : List String
  localize : Bool
deriving DecidableEq, Repr

/-- A model of `folium.Map`: fixed center and zoom, optional layers, and whether a
`LayerControl` (layer toggling) was added. -/
structure FoliumMap where
  center : ℚ × ℚ
  zoomStart : ℕ
  choropleth : Option ChoroplethLayer
  tooltipLayer : Option TooltipLayer
  layerControl : Bool
deriving DecidableEq, Repr

/-- The base map built first in `create_map` (line 33):
`folium.Map(location=[40.7128, -74.0060], zoom_start=10)`. -/
def baseMap : FoliumMap :=
  { center := ((40.7128 : ℚ), (-74.0060 : ℚ))
    zoomStart := 10
    choropleth := none
    tooltipLayer := none
    layerControl := false }

/-- The `st.error` message of line 37 (quotes elided). -/
def errMessage (covCol rankCol : String) : String :=
  "Column " ++ covCol ++ " or " ++ rankCol ++ " does not exist in the data."

/-- Python truthiness test of line 42:
`if selected_rank and selected_rank != "All"` (Python source quotes
elided). `None` and the empty
string are falsy, so no rank filtering happens for them. -/
def rankActive : Option String → Bool
  | none => false
  | some s => s != "" && s != "All"

/-- Boolean-mask selection `gdf_filtered[gdf_filtered[rank_col] == selected_rank]` (line 43):
boolean-mask selection on a column; raises `KeyError` when the column is
absent, as pandas does. -/
def filterByRank (gdf : DTable) (c v : String) : Except String (List RowT) :=
  if c ∈ gdf.columns then
    Except.ok (gdf.rows.filter (fun r => rowGet r c == some v))
  else
    Except.error ("KeyError: " ++ c)

/-- The function `create_map(gdf, year, coverage_ratio_col, rank_col, selected_rank,
legend_name)` (lines 31-69).  Returns the map together with the list of
user-visible `st.error` messages; a Python exception is `Except.error`. -/
def create_map (gdf : DTable) (year : Nat) (covCol rankCol : String)
    (selectedRank : Option String) (legendName : String) :
    Except String (FoliumMap × List String) :=
  if covCol ∉ gdf.columns ∨ rankCol ∉ gdf.columns then
    Except.ok (baseMap, [errMessage covCol rankCol])
  else
    match (if rankActive selectedRank then
             filterByRank gdf rankCol (selectedRank.getD "")
           else
             Except.ok gdf.rows) with
    | Except.error e => Except.error e
    | Except.ok fr =>
        Except.ok
          ({ baseMap with
              choropleth := some
                { data := fr
                  columns := ["TRACTCE", covCol]
                  keyOn := "feature.properties.TRACTCE"
                  fillColor := "YlOrRd"
                  fillOpacity := (0.7 : ℚ)
                  lineOpacity := (0.2 : ℚ)
                  legendName := legendName }
              tooltipLayer := some
                { data := fr
                  fields := ["TRACTCE", covCol, rankCol]
                  aliases := ["Census Tract Area", toString year ++ " " ++ legendName, "Rank"]
                  localize := true }
              layerControl := true }, [])

/-- The rows create_map actually renders: the data bound to its
choropleth layer (empty when the map has no choropleth or the call
raised). -/
def renderedRows (e : Except String (FoliumMap × List String)) : List RowT :=
  match e with
  | Except.ok (m, _) =>
      match m.choropleth with
      | some c => c.data
      | none => []
  | Except.error _ => []

/-- The map object of a create_map result, when the call did not raise. -/
def mapOf (e : Except String (FoliumMap × List String)) : Option FoliumMap :=
  match e with
  | Except.ok (m, _) => some m
  | Except.error _ => none

/-- The user-visible error messages of a create_map result. -/
def errorsOf (e : Except String (FoliumMap × List String)) : List String :=
  match e with
  | Except.ok (_, es) => es
  | Except.error _ => []

/-! Section: The LILA tab: cascading tract / neighborhood filter (lines 184-224) -/

/-- The filtering rule of lines 199-207: a non-"All" tract selection
filters the full dataset on `Census Tract Area` (taking precedence);
otherwise a non-"All" neighborhood selection filters on `NTA Name`;
otherwise the full dataset is used. -/
def selectRows (gdf : DTable) (ntaSel tractSel : String) : List RowT :=
  if tractSel != "All" then
    gdf.rows.filter (fun r => rowGet r "Census Tract Area" == some tractSel)
  else if ntaSel != "All" then
    gdf.rows.filter (fun r => rowGet r "NTA Name" == some ntaSel)
  else
    gdf.rows

/-- The full stateful step of lines 199-207, including the recomputation
of the NTA options and of the NTA selection (line 203:
`nta_selected = nta_options[1] if nta_selected == "All" else nta_selected`).
Returns the filtered rows and the updated NTA selection (itself a cell,
since an NTA option can be `NaN`); the outer `none` models the
`IndexError` Python raises when `nta_options[1]` does not exist. -/
def lilaFlow (gdf : DTable) (ntaSel tractSel : String) :
    Option (List RowT × Cell) :=
  if tractSel != "All" then
    let filtered := gdf.rows.filter (fun r => rowGet r "Census Tract Area" == some tractSel)
    let ntaOptions : List Cell :=
      some "All" :: pandasUnique (filtered.map (fun r => rowGet r "NTA Name"))
    if ntaSel == "All" then
      match ntaOptions[1]? with
      | none => none
      | some v => some (filtered, v)
    else
      some (filtered, some ntaSel)
  else if ntaSel != "All" then
    some (gdf.rows.filter (fun r => rowGet r "NTA Name" == some ntaSel), some ntaSel)
  else
    some (gdf.rows, some ntaSel)

/-- The detail cards rendered below the map (`display_info`, lines
226-236): one card per row of the filtered table. -/
def detailCards (rows : List RowT) : List RowT := rows

/-! Section: Rank-option extraction (lines 261 and 287) -/

/-- Line 261: prepend "All" to the sorted digit ranks, i.e.
drop missing values, deduplicate, keep only
digit strings, sort numerically, and prepend "All".  Raises `KeyError`
when the column is absent. -/
def rank_options (gdf : DTable) (c : String) : Except String (List String) :=
  if c ∈ gdf.columns then
    Except.ok ("All" ::
      sortByKey natOfDigits
        ((pandasUnique (gdf.rows.filterMap (fun r => rowGet r c))).filter isDigitStr))
  else
    Except.error ("KeyError: " ++ c)

/-! Section: CSV export (`gdf_lila.to_csv(index=False)`, lines 306-308)

The CSV writer and parser are external library collaborators
(pandas `to_csv` / `read_csv`); they are modelled from the spec:
comma-delimited, one header row of column names, one line per data row,
no index column, a missing cell written as the empty field.  The model
works on character lists and does not model quoting, so the round-trip
theorem assumes delimiter characters do not occur in names or cells. -/

/-- Join character lists with a separator character (comma join). -/
def joinSep (sep : Char) : List (List Char) → List Char
  | [] => []
  | [x] => x
  | x :: y :: ys => x ++ sep :: joinSep sep (y :: ys)

/-- Split a character list at a separator character (`str.split`).
Always returns at least one (possibly empty) field. -/
def splitSep (sep : Char) : List Char → List (List Char)
  | [] => [[]]
  | c :: cs =>
    match splitSep sep cs with
    | [] => []
    | h :: t => if c = sep then [] :: h :: t else (c :: h) :: t

/-- Modelled from the spec: `to_csv(index=False)` — header row of column
names then one comma-delimited line per row, cells in column order, a
missing cell as the empty field. -/
def to_csv (t : DTable) : List Char :=
  joinSep '\n'
    (joinSep ',' (t.columns.map String.toList) ::
      t.rows.map (fun r => joinSep ',' (r.map (fun p => (p.2.getD "").toList))))

/-- Modelled from the spec: re-parsing the exported CSV — the first line
is the header, every further line is a data row. -/
def parse_csv (s : List Char) : Option (List (List Char) × List (List (List Char))) :=
  match splitSep '\n' s with
  | [] => none
  | h :: rs => some (splitSep ',' h, rs.map (splitSep ','))

/-- The column names a re-parse of a CSV produces. -/
def parsedColumns (s : List Char) : List (List Char) :=
  match splitSep '\n' s with
  | [] => []
  | h :: _ => splitSep ',' h

/-- The number of data rows a re-parse of a CSV produces. -/
def parsedRowCount (s : List Char) : Nat :=
  (splitSep '\n' s).length - 1

/-! Section: The Data Visualization page as a state-threading step (C9) -/

/-- The three datasets loaded once at process start (lines 21-28). -/
structure AppState where
  gdf_lila : DTable
  gdf_supermarkets : DTable
  gdf_fast_food : DTable
deriving DecidableEq, Repr

/-- The user selections driving the Data Visualization page. -/
structure VizSelections where
  ntaSel : String
  tractSel : String
  superYear : Nat
  superRank : Option String
  ffYear : Nat
  ffRank : Option String
deriving DecidableEq, Repr

/-- The outputs of one execution of the Data Visualization page. -/
structure VizOutput where
  lilaResult : Option (List RowT × Cell)
  superMap : Except String (FoliumMap × List String)
  ffMap : Except String (FoliumMap × List String)
  csvDownload : List Char
deriving Repr

/-- One top-to-bottom execution of the Data Visualization page (lines
177-309), threading the loaded datasets through every operation: the
LILA tab filter, both `create_map` calls (which operate on a copy,
line 41), and the CSV download.  Every embedded pandas operation
(boolean-mask selection, `copy`, `to_csv`) builds a new value, so the
state component is returned as it came in. -/
def dataVisualization (st : AppState) (sel : VizSelections) :
    VizOutput × AppState :=
  let lila := lilaFlow st.gdf_lila sel.ntaSel sel.tractSel
  let superCov := toString sel.superYear ++ "_supermarket coverage ratio"
  let superRk := toString sel.superYear ++ "_rank"
  let m1 := create_map st.gdf_supermarkets sel.superYear superCov superRk
    sel.superRank "Supermarket Coverage Ratio"
  let ffCov := toString sel.ffYear ++ "_Fast Food Coverage Ratio"
  let ffRk := toString sel.ffYear ++ "_rank"
  let m2 := create_map st.gdf_fast_food sel.ffYear ffCov ffRk
    sel.ffRank "Fast Food Coverage Ratio"
  let csv := to_csv st.gdf_lila
  ({ lilaResult := lila, superMap := m1, ffMap := m2, csvDownload := csv }, st)

/-! Section: Concrete example tables for witnesses and counterexamples -/

/-- Row of the spec scenario: tract T1 with rank "3". -/
def scenRow1 : RowT :=
  [("TRACTCE", some "T1"), ("2010_rank", some "3"),
   ("2010_supermarket coverage ratio", some "0.5")]

/-- Row of the spec scenario: tract T2 with rank "7". -/
def scenRow2 : RowT :=
  [("TRACTCE", some "T2"), ("2010_rank", some "7"),
   ("2010_supermarket coverage ratio", some "0.8")]

/-- Row of the spec scenario: tract T3 with an absent (`None`) rank. -/
def scenRow3 : RowT :=
  [("TRACTCE", some "T3"), ("2010_rank", none),
   ("2010_supermarket coverage ratio", some "0.2")]

/-- The spec scenario dataset `{T1: rank="3", T2: rank="7", T3: rank=None}`. -/
def scenTable : DTable :=
  { columns := ["TRACTCE", "2010_rank", "2010_supermarket coverage ratio"]
    rows := [scenRow1, scenRow2, scenRow3] }

/-- A small LILA-like table with two tracts in two neighborhoods. -/
def lilaExample : DTable :=
  { columns := ["Census Tract Area", "NTA Name", "Food Index"]
    rows :=
      [[("Census Tract Area", some "100"), ("NTA Name", some "Bushwick"),
        ("Food Index", some "1.5")],
       [("Census Tract Area", some "200"), ("NTA Name", some "Park Slope"),
        ("Food Index", some "2.0")]] }

/-- A small table for the CSV round-trip witness (one missing cell). -/
def csvEx : DTable :=
  { columns := ["a", "b"]
    rows := [[("a", some "1"), ("b", none)], [("a", some "2"), ("b", some "x")]] }

/-! Section: Helper lemmas -/

/-- Filtering on one key hits at most one row when the mapped keys are
pairwise distinct. -/
theorem length_filter_le_one_of_nodup_map {α β : Type} [BEq β] [LawfulBEq β]
    (f : α → β) (b : β) (l : List α) (h : (l.map f).Nodup) :
    (l.filter (fun a => f a == b)).length ≤ 1 := by
  induction l with
  | nil => simp
  | cons a l ih =>
    simp only [List.map_cons, List.nodup_cons] at h
    rw [List.filter_cons]
    by_cases hb : f a = b
    · have hnil : l.filter (fun a => f a == b) = [] := by
        rw [List.filter_eq_nil_iff]
        intro x hx hfx
        rw [beq_iff_eq] at hfx
        exact h.1 (by rw [hb, ← hfx]; exact List.mem_map_of_mem f hx)
      simp [hb, hnil]
    · have hcond : (f a == b) = false := by simp [hb]
      rw [hcond]
      simpa using ih h.2

theorem mem_insertByKey (key : String → Nat) (a x : String) (l : List String) :
    x ∈ insertByKey key a l ↔ x = a ∨ x ∈ l := by
  induction l with
  | nil => simp [insertByKey]
  | cons y ys ih =>
    unfold insertByKey
    by_cases h : key a ≤ key y
    · simp [h]
    · simp only [h, if_false, List.mem_cons, ih]
      tauto

theorem mem_sortByKey (key : String → Nat) (x : String) (l : List String)
    (h : x ∈ sortByKey key l) : x ∈ l := by
  induction l with
  | nil => simp [sortByKey] at h
  | cons a l ih =>
    have h2 : x ∈ insertByKey key a (sortByKey key l) := h
    rw [mem_insertByKey] at h2
    rcases h2 with h2 | h2
    · simp [h2]
    · exact List.mem_cons_of_mem a (ih h2)

theorem mem_pandasUnique {α : Type} [DecidableEq α] (x : α) (l : List α)
    (h : x ∈ pandasUnique l) : x ∈ l := by
  induction l with
  | nil => simp [pandasUnique] at h
  | cons a l ih =>
    simp only [pandasUnique, List.mem_cons] at h
    rcases h with h | h
    · simp [h]
    · exact List.mem_cons_of_mem a (ih (List.mem_filter.1 h).1)

theorem splitSep_ne_nil (sep : Char) (xs : List Char) : splitSep sep xs ≠ [] := by
  induction xs with
  | nil => simp [splitSep]
  | cons c cs ih =>
    unfold splitSep
    split
    · next heq => exact absurd heq ih
    · next hd tl heq => by_cases hc : c = sep <;> simp [hc]

theorem splitSep_of_not_mem (sep : Char) (x : List Char) (h : sep ∉ x) :
    splitSep sep x = [x] := by
  induction x with
  | nil => rfl
  | cons c cs ih =>
    have hc : c ≠ sep := fun he => h (he ▸ List.mem_cons_self c cs)
    have hcs : sep ∉ cs := fun hm => h (List.mem_cons_of_mem c hm)
    unfold splitSep
    rw [ih hcs]
    simp [hc]

theorem splitSep_append (sep : Char) (x rest : List Char) (h : sep ∉ x) :
    splitSep sep (x ++ sep :: rest) = x :: splitSep sep rest := by
  induction x with
  | nil =>
    simp only [List.nil_append]
    rw [splitSep]
    cases hr : splitSep sep rest with
    | nil => exact absurd hr (splitSep_ne_nil sep rest)
    | cons hd tl => simp
  | cons c cs ih =>
    have hc : c ≠ sep := fun he => h (he ▸ List.mem_cons_self c cs)
    have hcs : sep ∉ cs := fun hm => h (List.mem_cons_of_mem c hm)
    have ih2 := ih hcs
    show splitSep sep (c :: (cs ++ sep :: rest)) = (c :: cs) :: splitSep sep rest
    rw [splitSep, ih2]
    simp [hc]

theorem splitSep_joinSep (sep : Char) (xss : List (List Char))
    (hne : xss ≠ []) (hmem : ∀ x ∈ xss, sep ∉ x) :
    splitSep sep (joinSep sep xss) = xss := by
  induction xss with
  | nil => exact absurd rfl hne
  | cons x xss ih =>
    cases xss with
    | nil => exact splitSep_of_not_mem sep x (hmem x (List.mem_cons_self x []))
    | cons y ys =>
      rw [show joinSep sep (x :: y :: ys) = x ++ sep :: joinSep sep (y :: ys) from rfl]
      rw [splitSep_append sep x _ (hmem x (List.mem_cons_self x _))]
      rw [ih (by simp) (fun z hz => hmem z (List.mem_cons_of_mem x hz))]

theorem not_mem_joinSep (sep a : Char) (xss : List (List Char))
    (hne : a ≠ sep) (hmem : ∀ x ∈ xss, a ∉ x) : a ∉ joinSep sep xss := by
  induction xss with
  | nil => simp [joinSep]
  | cons x xss ih =>
    cases xss with
    | nil => exact hmem x (List.mem_cons_self x [])
    | cons y ys =>
      rw [show joinSep sep (x :: y :: ys) = x ++ sep :: joinSep sep (y :: ys) from rfl]
      intro hmem2
      rcases List.mem_append.1 hmem2 with h | h
      · exact hmem x (List.mem_cons_self x _) h
      · rcases List.mem_cons.1 h with h | h
        · exact hne h
        · exact ih (fun z hz => hmem z (List.mem_cons_of_mem x hz)) h

/-! Section: Claim theorems -/

/-- Claim C1: for every dataset whose tract identifiers are pairwise distinct
and every tract selection `T ≠ "All"`, the tract filter returns a subset
of the dataset of size at most one in which every row carries identifier
`T`; the result is empty exactly when no row of the dataset has
identifier `T`; and the result does not depend on the current
neighborhood selection (tract selection takes precedence). -/
theorem c1_tract_filter (gdf : DTable) (ntaSel ntaSel2 T : String)
    (huniq : (gdf.rows.map (fun r => rowGet r "Census Tract Area")).Nodup)
    (hT : T ≠ "All") :
    (selectRows gdf ntaSel T).Sublist gdf.rows ∧
    (selectRows gdf ntaSel T).length ≤ 1 ∧
    (∀ r ∈ selectRows gdf ntaSel T, rowGet r "Census Tract Area" = some T) ∧
    (selectRows gdf ntaSel T = [] ↔
      ∀ r ∈ gdf.rows, rowGet r "Census Tract Area" ≠ some T) ∧
    selectRows gdf ntaSel T = selectRows gdf ntaSel2 T := by
  have hsel : ∀ n : String, selectRows gdf n T =
      gdf.rows.filter (fun r => rowGet r "Census Tract Area" == some T) := by
    intro n
    unfold selectRows
    have hb : (T != "All") = true := by simp [bne_iff_ne, hT]
    rw [hb]
    simp
  refine ⟨?_, ?_, ?_, ?_, ?_⟩
  · rw [hsel]
    exact List.filter_sublist gdf.rows
  · rw [hsel]
    exact length_filter_le_one_of_nodup_map _ (some T) gdf.rows huniq
  · intro r hr
    rw [hsel] at hr
    have := (List.mem_filter.1 hr).2
    exact beq_iff_eq.1 this
  · rw [hsel, List.filter_eq_nil_iff]
    constructor
    · intro h r hr hgr
      exact h r hr (by simp [hgr])
    · intro h r hr hgr
      exact h r hr (beq_iff_eq.1 hgr)
  · rw [hsel, hsel]

/-- Witness for C1 at a concrete dataset with distinct tract identifiers. -/
theorem c1_tract_filter_witness :
    (selectRows lilaExample "Bushwick" "100").length ≤ 1 ∧
    selectRows lilaExample "Bushwick" "100" = selectRows lilaExample "All" "100" := by
  have h := c1_tract_filter lilaExample "Bushwick" "All" "100" (by decide) (by decide)
  exact ⟨h.2.1, h.2.2.2.2⟩

/-- Claim C5 (code bug): when the tract selection does not match any row while
the neighborhood selection is "All", the recomputed NTA option list is
just `["All"]` and line 203 evaluates `nta_options[1]`, which raises
`IndexError` (modelled as `none`) instead of rendering an empty map and
empty detail list — even though the tract filter result itself is empty
and the detail-card list for it would be empty. -/
theorem c5_empty_result_index_error :
    lilaFlow lilaExample "All" "999" = none ∧
    selectRows lilaExample "All" "999" = [] ∧
    detailCards (selectRows lilaExample "All" "999") = [] := by
  refine ⟨?_, ?_, ?_⟩ <;> rfl

/-- Claim C6: for every dataset and neighborhood selection `N ≠ "All"` with
tract selection "All", the filter result is exactly the rows whose
`NTA Name` equals `N`; hence that field is constant and equal to `N`
over the result. -/
theorem c6_neighborhood_filter (gdf : DTable) (N : String) (hN : N ≠ "All") :
    selectRows gdf N "All" =
      gdf.rows.filter (fun r => rowGet r "NTA Name" == some N) ∧
    (∀ r ∈ selectRows gdf N "All", rowGet r "NTA Name" = some N) ∧
    (∀ r ∈ gdf.rows, rowGet r "NTA Name" = some N →
      r ∈ selectRows gdf N "All") := by
  have hsel : selectRows gdf N "All" =
      gdf.rows.filter (fun r => rowGet r "NTA Name" == some N) := by
    unfold selectRows
    have hb : (N != "All") = true := by simp [bne_iff_ne, hN]
    simp [hb]
  refine ⟨hsel, ?_, ?_⟩
  · intro r hr
    rw [hsel] at hr
    exact beq_iff_eq.1 (List.mem_filter.1 hr).2
  · intro r hr hgr
    rw [hsel]
    exact List.mem_filter.2 ⟨hr, by simp [hgr]⟩

/-- Witness for C6 at a concrete dataset and neighborhood. -/
theorem c6_neighborhood_filter_witness :
    selectRows lilaExample "Bushwick" "All" =
      lilaExample.rows.filter (fun r => rowGet r "NTA Name" == some "Bushwick") ∧
    (∀ r ∈ selectRows lilaExample "Bushwick" "All",
      rowGet r "NTA Name" = some "Bushwick") := by
  have h := c6_neighborhood_filter lilaExample "Bushwick" (by decide)
  exact ⟨h.1, h.2.1⟩

/-- Claim C9: one top-to-bottom execution of the Data Visualization page
returns the loaded datasets unchanged: filtering and map construction
only build new transient values. -/
theorem c9_no_mutation (st : AppState) (sel : VizSelections) :
    (dataVisualization st sel).2 = st := rfl

/-- Claim C10: passing `selected_rank = None` or the (falsy) empty string to
create_map yields exactly the same map as passing "All": no rank
filtering is applied in either case. -/
theorem c10_falsy_rank (gdf : DTable) (year : Nat) (covCol rankCol L : String) :
    create_map gdf year covCol rankCol none L =
      create_map gdf year covCol rankCol (some "All") L ∧
    create_map gdf year covCol rankCol (some "") L =
      create_map gdf year covCol rankCol (some "All") L := by
  have h1 : rankActive none = false := rfl
  have h2 : rankActive (some "") = false := rfl
  have h3 : rankActive (some "All") = false := rfl
  constructor <;> simp [create_map, h1, h2, h3]

/-- Claim C2: when the value column or the rank column is absent from the
table, create_map surfaces a user-visible error message and returns the
empty base map (no choropleth, no tooltip layer) without raising an
exception. -/
theorem c2_missing_column (gdf : DTable) (year : Nat) (covCol rankCol : String)
    (sr : Option String) (L : String)
    (h : covCol ∉ gdf.columns ∨ rankCol ∉ gdf.columns) :
    create_map gdf year covCol rankCol sr L =
      Except.ok (baseMap, [errMessage covCol rankCol]) ∧
    baseMap.choropleth = none ∧ baseMap.tooltipLayer = none := by
  refine ⟨?_, rfl, rfl⟩
  unfold create_map
  rw [if_pos h]

/-- Witness for C2: requesting an absent value column on a concrete
table yields the empty base map and an error message, not an exception. -/
theorem c2_missing_column_witness :
    create_map (DTable.mk ["a"] []) 2003 "v" "r" none "L" =
      Except.ok (baseMap, [errMessage "v" "r"]) :=
  (c2_missing_column (DTable.mk ["a"] []) 2003 "v" "r" none "L"
    (Or.inl (by decide))).1

/-- Counterexample for claim C7: on a table missing the requested columns,
create_map returns the bare base map, whose `LayerControl` (layer
toggling) was never added — refuting the claim that the returned map has
layer toggling enabled for every input table and column choice. -/
theorem c7_counterexample :
    mapOf (create_map (DTable.mk ["TRACTCE"] []) 2003 "v" "r" (some "All") "L") =
      some baseMap ∧
    baseMap.layerControl = false := by
  exact ⟨rfl, rfl⟩

/-- Claim C7 (amended): the map create_map returns is always centered on the
fixed reference point (40.7128, -74.0060) at zoom 10, independently of
the data and of every selection, and create_map never raises; layer
toggling is enabled whenever both requested columns exist in the table
(on the missing-column path the bare base map has no layer control). -/
theorem c7_fixed_center (gdf : DTable) (year : Nat) (covCol rankCol : String)
    (sr : Option String) (L : String) :
    ∃ m errs, create_map gdf year covCol rankCol sr L = Except.ok (m, errs) ∧
      m.center = ((40.7128 : ℚ), (-74.0060 : ℚ)) ∧
      m.zoomStart = 10 ∧
      (covCol ∈ gdf.columns → rankCol ∈ gdf.columns → m.layerControl = true) := by
  unfold create_map
  by_cases h : covCol ∉ gdf.columns ∨ rankCol ∉ gdf.columns
  · rw [if_pos h]
    refine ⟨baseMap, [errMessage covCol rankCol], rfl, rfl, rfl, ?_⟩
    intro h1 h2
    rcases h with h | h
    · exact absurd h1 h
    · exact absurd h2 h
  · rw [if_neg h]
    push_neg at h
    have hfk : (if rankActive sr then filterByRank gdf rankCol (sr.getD "")
        else Except.ok gdf.rows) =
        Except.ok (if rankActive sr then
          gdf.rows.filter (fun r => rowGet r rankCol == some (sr.getD ""))
        else gdf.rows) := by
      by_cases hra : rankActive sr
      · simp [hra, filterByRank, h.2]
      · simp [hra]
    rw [hfk]
    exact ⟨_, _, rfl, rfl, rfl, fun _ _ => rfl⟩

/-- Witness for C7 (amended): on a concrete table holding both columns,
layer toggling is enabled and the center and zoom are the fixed ones. -/
theorem c7_fixed_center_witness :
    ∃ m errs,
      create_map scenTable 2010 "2010_supermarket coverage ratio" "2010_rank"
        (some "3") "L" = Except.ok (m, errs) ∧
      m.center = ((40.7128 : ℚ), (-74.0060 : ℚ)) ∧
      m.layerControl = true := by
  obtain ⟨m, errs, he, hc, _, hl⟩ :=
    c7_fixed_center scenTable 2010 "2010_supermarket coverage ratio"
      "2010_rank" (some "3") "L"
  exact ⟨m, errs, he, hc, hl (by decide) (by decide)⟩

/-- Counterexample for claim C3: with the (falsy) empty string as the selected
rank, create_map renders the whole table, not the rows whose rank column
equals the empty string — refuting the claim for arbitrary `r ≠ "All"`. -/
theorem c3_counterexample :
    ¬(renderedRows (create_map scenTable 2010
        "2010_supermarket coverage ratio" "2010_rank" (some "") "L") =
      scenTable.rows.filter (fun row => rowGet row "2010_rank" == some "")) := by
  decide

/-- Claim C3 (amended): for a fixed dataset, year, value column and rank
column both present in the table, and a non-empty rank value
`r ≠ "All"`, the rows create_map renders are exactly the rows whose rank
column equals `r`, and they are a sublist of the rows rendered when the
rank selector is "All" (the whole table). -/
theorem c3_rank_filter (gdf : DTable) (year : Nat) (covCol rankCol L r : String)
    (hcov : covCol ∈ gdf.columns) (hrk : rankCol ∈ gdf.columns)
    (hAll : r ≠ "All") (hne : r ≠ "") :
    renderedRows (create_map gdf year covCol rankCol (some r) L) =
      gdf.rows.filter (fun row => rowGet row rankCol == some r) ∧
    renderedRows (create_map gdf year covCol rankCol (some "All") L) =
      gdf.rows ∧
    (renderedRows (create_map gdf year covCol rankCol (some r) L)).Sublist
      (renderedRows (create_map gdf year covCol rankCol (some "All") L)) := by
  have hco : ¬(covCol ∉ gdf.columns ∨ rankCol ∉ gdf.columns) := by
    push_neg
    exact ⟨hcov, hrk⟩
  have hra : rankActive (some r) = true := by
    simp [rankActive, bne_iff_ne, hne, hAll]
  have hra2 : rankActive (some "All") = false := rfl
  have e1 : renderedRows (create_map gdf year covCol rankCol (some r) L) =
      gdf.rows.filter (fun row => rowGet row rankCol == some r) := by
    simp [renderedRows, create_map, hco, hra, filterByRank, hrk, hcov]
  have e2 : renderedRows (create_map gdf year covCol rankCol (some "All") L) =
      gdf.rows := by
    simp [renderedRows, create_map, hco, hra2, hrk, hcov]
  refine ⟨e1, e2, ?_⟩
  rw [e1, e2]
  exact List.filter_sublist gdf.rows

/-- Witness for C3 (amended) on the concrete scenario table with rank
"3". -/
theorem c3_rank_filter_witness :
    renderedRows (create_map scenTable 2010
        "2010_supermarket coverage ratio" "2010_rank" (some "3") "L") =
      scenTable.rows.filter (fun row => rowGet row "2010_rank" == some "3") ∧
    renderedRows (create_map scenTable 2010
        "2010_supermarket coverage ratio" "2010_rank" (some "All") "L") =
      scenTable.rows := by
  have h := c3_rank_filter scenTable 2010 "2010_supermarket coverage ratio"
    "2010_rank" "L" "3" (by decide) (by decide) (by decide) (by decide)
  exact ⟨h.1, h.2.1⟩

/-- Claim C4: on the spec scenario dataset `{T1: rank="3", T2: rank="7",
T3: rank=None}`, the rank filter with "3" renders exactly `{T1}`, with
"All" it renders all three tracts, and the rank-option extraction
produces `["All", "3", "7"]` — containing "3" and "7" but no entry for
the absent rank; in general every entry of the option list after "All"
is a digit string that occurs in the rank column. -/
theorem c4_rank_scenario :
    renderedRows (create_map scenTable 2010 "2010_supermarket coverage ratio"
        "2010_rank" (some "3") "Supermarket Coverage Ratio") = [scenRow1] ∧
    renderedRows (create_map scenTable 2010 "2010_supermarket coverage ratio"
        "2010_rank" (some "All") "Supermarket Coverage Ratio") =
      [scenRow1, scenRow2, scenRow3] ∧
    rank_options scenTable "2010_rank" = Except.ok ["All", "3", "7"] ∧
    (∀ (gdf : DTable) (c : String) (l : List String) (s : String),
      rank_options gdf c = Except.ok l → s ∈ l.tail →
        isDigitStr s = true ∧ some s ∈ gdf.rows.map (fun r => rowGet r c)) := by
  refine ⟨by decide, by decide, rfl, ?_⟩
  intro gdf c l s hok hs
  unfold rank_options at hok
  by_cases hc : c ∈ gdf.columns
  · rw [if_pos hc] at hok
    have hl := Except.ok.inj hok
    subst hl
    simp only [List.tail_cons] at hs
    have h1 := mem_sortByKey _ _ _ hs
    have h2 := List.mem_filter.1 h1
    refine ⟨h2.2, ?_⟩
    have h3 := mem_pandasUnique _ _ h2.1
    obtain ⟨r, hr, hg⟩ := List.mem_filterMap.1 h3
    exact hg ▸ List.mem_map_of_mem _ hr
  · rw [if_neg hc] at hok
    exact absurd hok (by simp)

/-- Witness for the general part of C4: "7" is a digit string occurring
in the scenario rank column, extracted from the computed option list. -/
theorem c4_rank_scenario_witness :
    isDigitStr "7" = true ∧
    some "7" ∈ scenTable.rows.map (fun r => rowGet r "2010_rank") :=
  c4_rank_scenario.2.2.2 scenTable "2010_rank" ["All", "3", "7"] "7"
    rfl (by decide)

/-- Claim C8: exporting a table to CSV (comma-delimited, header row, no index
column) and re-parsing reproduces the column list and the row count,
provided no column name or cell contains a delimiter character (the
external pandas writer would quote such fields; quoting is not
modelled). -/
theorem c8_csv_roundtrip (t : DTable)
    (hcols : t.columns ≠ [])
    (hcolNoSep : ∀ c ∈ t.columns, ',' ∉ c.toList ∧ '\n' ∉ c.toList)
    (hcellNoSep : ∀ r ∈ t.rows, ∀ p ∈ r,
      ',' ∉ (p.2.getD "").toList ∧ '\n' ∉ (p.2.getD "").toList) :
    parsedColumns (to_csv t) = t.columns.map String.toList ∧
    parsedRowCount (to_csv t) = t.rows.length := by
  have hheader : '\n' ∉ joinSep ',' (t.columns.map String.toList) := by
    apply not_mem_joinSep _ _ _ (by decide)
    intro x hx
    obtain ⟨c, hc, rfl⟩ := List.mem_map.1 hx
    exact (hcolNoSep c hc).2
  have hrowlines : ∀ line ∈ t.rows.map
      (fun r => joinSep ',' (r.map (fun p => (p.2.getD "").toList))),
      '\n' ∉ line := by
    intro line hline
    obtain ⟨r, hr, rfl⟩ := List.mem_map.1 hline
    apply not_mem_joinSep _ _ _ (by decide)
    intro x hx
    obtain ⟨p, hp, rfl⟩ := List.mem_map.1 hx
    exact (hcellNoSep r hr p hp).2
  have hlines : splitSep '\n' (to_csv t) =
      joinSep ',' (t.columns.map String.toList) ::
        t.rows.map (fun r => joinSep ',' (r.map (fun p => (p.2.getD "").toList))) := by
    unfold to_csv
    apply splitSep_joinSep
    · simp
    · intro x hx
      rcases List.mem_cons.1 hx with h | h
      · exact h ▸ hheader
      · exact hrowlines x h
  constructor
  · unfold parsedColumns
    rw [hlines]
    apply splitSep_joinSep
    · simp [hcols]
    · intro x hx
      obtain ⟨c, hc, rfl⟩ := List.mem_map.1 hx
      exact (hcolNoSep c hc).1
  · unfold parsedRowCount
    rw [hlines]
    simp

/-- Witness for C8 on a concrete two-row table with a missing cell. -/
theorem c8_csv_roundtrip_witness :
    parsedColumns (to_csv csvEx) = csvEx.columns.map String.toList ∧
    parsedRowCount (to_csv csvEx) = csvEx.rows.length :=
  c8_csv_roundtrip csvEx (by decide) (by decide) (by decide)

end FoodDesert
